import Mathlib

/- Shallow embedding of the RetirePro simulation engine
   (`runSimulation` in src/utils/calculations.ts).

   Modelling choices:
   * JavaScript numbers are embedded as exact rationals (ℚ); ages and
     calendar years as integers (ℤ).
   * `Math.round` becomes `jsRound` (round half towards +∞, which is what
     `Math.round` computes on exact values).
   * A JS `Record<string, number>` becomes an association list with
     insert-or-overwrite semantics (`recSet`) and first-match lookup
     (`recGet`); keys are unique by construction since maps are only
     built through `recSet` starting from the empty record.
   * The JS truthiness test `if (!depletionAge)` is embedded faithfully
     by `jsFalsyOpt`: it holds for `null` and for the number 0.
   * The source's running variables `totalAssetGrowth` and
     `totalContributions` are dead (never read after being accumulated)
     and are not carried. -/

/-- JavaScript `Math.round` on exact rational inputs: `⌊q + 1/2⌋`. -/
def jsRound (q : ℚ) : ℤ := ⌊q + 1/2⌋

/-- `Asset` from src/types (`part_000`); the `type` tag is informational only. -/
structure Asset where
  id : String
  name : String
  balance : ℚ
  contribution : ℚ
  returnRate : ℚ
  type : String
deriving DecidableEq

/-- `IncomeStream` from src/types. -/
structure IncomeStream where
  id : String
  name : String
  monthlyAmount : ℚ
  startAge : ℤ
  endAge : ℤ
  growthRate : ℚ
  isTaxable : Bool
deriving DecidableEq

/-- `FinancialSettings` from src/types. -/
structure FinancialSettings where
  currentAge : ℤ
  retirementAge : ℤ
  planningHorizon : ℤ
  monthlySpending : ℚ
  inflationRate : ℚ
  preRetirementReturn : ℚ
deriving DecidableEq

/-- A JS string-keyed record of rounded amounts (`Record<string, number>`). -/
abbrev Breakdown : Type := List (String × ℤ)

/-- The empty record `{}`. -/
def Breakdown.empty : Breakdown := []

/-- JS property assignment `m[k] = v`: overwrite in place if the key is
present, otherwise append. -/
def recSet : Breakdown → String → ℤ → Breakdown
  | [], k, v => [(k, v)]
  | p :: rest, k, v => if p.1 = k then (k, v) :: rest else p :: recSet rest k v

/-- JS property lookup `m[k]`, `none` when the key is absent. -/
def recGet : Breakdown → String → Option ℤ
  | [], _ => none
  | p :: rest, k => if p.1 = k then some p.2 else recGet rest k

/-- `YearData` from src/types: all monetary fields already rounded. -/
structure YearData where
  age : ℤ
  year : ℤ
  expenses : ℤ
  totalIncome : ℤ
  portfolioBalance : ℤ
  shortfall : ℤ
  withdrawals : ℤ
  breakdown : Breakdown

/-- `SimulationResult` from src/types; `finalBalance` keeps full precision. -/
structure SimulationResult where
  success : Bool
  depletionAge : Option ℤ
  finalBalance : ℚ
  data : List YearData

/-- JS truthiness of `!depletionAge` for a `number | null` variable:
true exactly on `null` and on the number 0. -/
def jsFalsyOpt : Option ℤ → Bool
  | none => true
  | some v => decide (v = 0)

/-- Line 31: a stream is active when `startAge <= age && age <= endAge`. -/
def streamActive (s : IncomeStream) (age : ℤ) : Bool :=
  decide (s.startAge ≤ age ∧ age ≤ s.endAge)

/-- Lines 37-38: `monthlyAmount * 12 * (1 + growthRate/100) ^ i`, where `i`
is the zero-based index of the simulated year. -/
def streamAmount (s : IncomeStream) (i : ℕ) : ℚ :=
  s.monthlyAmount * 12 * (1 + s.growthRate / 100) ^ i

/-- Body of the `incomeStreams.forEach` at lines 30-43, acting on the
accumulator `(totalFixedIncome, breakdown)`. -/
def incomeStep (age : ℤ) (i : ℕ) (acc : ℚ × Breakdown) (s : IncomeStream) :
    ℚ × Breakdown :=
  if streamActive s age then
    (acc.1 + streamAmount s i, recSet acc.2 s.name (jsRound (streamAmount s i)))
  else acc

/-- Lines 27-43: fold the income streams into total fixed income and the
per-name breakdown entries. -/
def processIncome (streams : List IncomeStream) (age : ℤ) (i : ℕ) :
    ℚ × Breakdown :=
  streams.foldl (incomeStep age i) (0, Breakdown.empty)

/-- Lines 49-63: growth on the pre-contribution balance, then (only when
not retired) the inflation-adjusted contribution. -/
def growAsset (isRetired : Bool) (inflM : ℚ) (a : Asset) : Asset :=
  let afterGrowth := a.balance + a.balance * (a.returnRate / 100)
  { a with balance := if isRetired then afterGrowth
                      else afterGrowth + a.contribution * inflM }

/-- `reduce((sum, a) => sum + a.balance, 0)` (lines 14, 78, 106). -/
def totalBalance (assets : List Asset) : ℚ :=
  assets.foldl (fun s a => s + a.balance) 0

/-- Lines 66-74: the withdrawal need is the positive part of
`requiredAnnualExpense - totalFixedIncome`, and only when retired. -/
def withdrawalNeed (isRetired : Bool) (expense income : ℚ) : ℚ :=
  if isRetired ∧ 0 < expense - income then expense - income else 0

/-- Lines 76-98: execute the withdrawal. Returns the updated assets, the
actual withdrawal, the shortage, and the updated depletion age. -/
def withdrawPhase (assets : List Asset) (wn : ℚ) (dep : Option ℤ) (age : ℤ) :
    List Asset × ℚ × ℚ × Option ℤ :=
  let ta := totalBalance assets
  if 0 < wn ∧ 0 < ta then
    if wn ≤ ta then
      (assets.map (fun a => { a with balance := a.balance - wn * (a.balance / ta) }),
        wn, 0, dep)
    else
      (assets.map (fun a => { a with balance := 0 }), ta, wn - ta,
        if jsFalsyOpt dep then some age else dep)
  else if 0 < wn ∧ ta ≤ 0 then
    (assets, 0, wn, if jsFalsyOpt dep then some age else dep)
  else
    (assets, 0, 0, dep)

/-- One iteration of the main loop (lines 17-118), for loop index `i`:
returns the mutated assets, the updated depletion age, and the pushed
`YearData`. -/
def simYear (startYear : ℤ) (settings : FinancialSettings)
    (streams : List IncomeStream) (i : ℕ) (assets : List Asset)
    (dep : Option ℤ) : List Asset × Option ℤ × YearData :=
  let currentAge : ℤ := settings.currentAge + (i : ℤ)
  let isRetired : Bool := decide (settings.retirementAge ≤ currentAge)
  let inflM : ℚ := (1 + settings.inflationRate / 100) ^ i
  let expense : ℚ := settings.monthlySpending * 12 * inflM
  let inc := processIncome streams currentAge i
  let grown := assets.map (growAsset isRetired inflM)
  let wn := withdrawalNeed isRetired expense inc.1
  let wr := withdrawPhase grown wn dep currentAge
  let bd1 := recSet inc.2 "Portfolio Withdrawals" (jsRound wr.2.1)
  let bd2 := if 0 < wr.2.2.1 then recSet bd1 "Income Shortage" (jsRound wr.2.2.1)
             else bd1
  (wr.1, wr.2.2.2,
    { age := currentAge
      year := startYear + (i : ℤ)
      expenses := jsRound expense
      totalIncome := jsRound (inc.1 + wr.2.1)
      portfolioBalance := jsRound (totalBalance wr.1)
      withdrawals := jsRound wr.2.1
      shortfall := jsRound wr.2.2.1
      breakdown := bd2 })

/-- The main loop, with `fuel` remaining iterations starting at index `i`. -/
def simLoop (startYear : ℤ) (settings : FinancialSettings)
    (streams : List IncomeStream) :
    ℕ → ℕ → List Asset → Option ℤ → List Asset × Option ℤ × List YearData
  | _, 0, assets, dep => (assets, dep, [])
  | i, fuel + 1, assets, dep =>
    let st := simYear startYear settings streams i assets dep
    let rest := simLoop startYear settings streams (i + 1) fuel st.1 st.2.1
    (rest.1, rest.2.1, st.2.2 :: rest.2.2)

/-- `runSimulation` (lines 3-126). `startYear` stands for the environment
read `new Date().getFullYear()`; the JS deep copy of the asset list
(line 13) is the identity on values in this value-semantics embedding. -/
def runSimulation (startYear : ℤ) (settings : FinancialSettings)
    (assets : List Asset) (incomeStreams : List IncomeStream) :
    SimulationResult :=
  let yearsToRun : ℤ := settings.planningHorizon - settings.currentAge + 1
  let r := simLoop startYear settings incomeStreams 0 yearsToRun.toNat assets none
  { success := r.2.1.isNone
    depletionAge := r.2.1
    finalBalance := totalBalance r.1
    data := r.2.2 }

/-- Recomputation of the internal `shortage` variable of `simYear`
(definitionally the `wr.2.2.1` of `simYear`'s body), exposed so that
theorems can speak about the unrounded shortage of a simulated year. -/
def yearShortage (settings : FinancialSettings) (streams : List IncomeStream)
    (i : ℕ) (assets : List Asset) (dep : Option ℤ) : ℚ :=
  let currentAge : ℤ := settings.currentAge + (i : ℤ)
  let isRetired : Bool := decide (settings.retirementAge ≤ currentAge)
  let inflM : ℚ := (1 + settings.inflationRate / 100) ^ i
  let expense : ℚ := settings.monthlySpending * 12 * inflM
  let inc := processIncome streams currentAge i
  let grown := assets.map (growAsset isRetired inflM)
  let wn := withdrawalNeed isRetired expense inc.1
  (withdrawPhase grown wn dep currentAge).2.2.1

/-- A `YearData` erased of its calendar-year label, used to state that the
environment-read start year influences nothing but the labels. -/
def stripYear (yd : YearData) : YearData := { yd with year := 0 }

/-- A throwaway default `YearData` used with `List.getD` in concrete
statements. -/
def yd0 : YearData :=
  { age := 0, year := 0, expenses := 0, totalIncome := 0, portfolioBalance := 0
    shortfall := 0, withdrawals := 0, breakdown := Breakdown.empty }

/-- Scenario B settings (spec §8): ages 65-66, monthly spending 200,
no inflation. -/
def settingsB : FinancialSettings :=
  { currentAge := 65, retirementAge := 65, planningHorizon := 66
    monthlySpending := 200, inflationRate := 0, preRetirementReturn := 0 }

/-- Scenario B's single asset: balance 1000, no contribution, 0% return. -/
def assetB : Asset :=
  { id := "a1", name := "Savings", balance := 1000, contribution := 0
    returnRate := 0, type := "Cash/Savings" }

/-- Degenerate settings exercising the depletion-age guard at age 0. -/
def settingsZero : FinancialSettings :=
  { currentAge := 0, retirementAge := 0, planningHorizon := 1
    monthlySpending := 100, inflationRate := 0, preRetirementReturn := 0 }

/-- Scenario C settings (spec §8): ages 60-62, retirement at 62, no
spending, no inflation. -/
def settingsC : FinancialSettings :=
  { currentAge := 60, retirementAge := 62, planningHorizon := 62
    monthlySpending := 0, inflationRate := 0, preRetirementReturn := 0 }

/-- Scenario C's single asset: balance 0, contribution 10000, 5% return. -/
def assetC : Asset :=
  { id := "a1", name := "401k", balance := 0, contribution := 10000
    returnRate := 5, type := "401(k)/403(b)" }

/-- Settings for one non-retired year at age 30 with no spending. -/
def settingsOneYear : FinancialSettings :=
  { currentAge := 30, retirementAge := 100, planningHorizon := 30
    monthlySpending := 0, inflationRate := 0, preRetirementReturn := 0 }

/-- First of two income streams sharing the display name "Pension". -/
def streamP1 : IncomeStream :=
  { id := "i1", name := "Pension", monthlyAmount := 100, startAge := 0
    endAge := 200, growthRate := 0, isTaxable := true }

/-- Second of two income streams sharing the display name "Pension". -/
def streamP2 : IncomeStream :=
  { id := "i2", name := "Pension", monthlyAmount := 200, startAge := 0
    endAge := 200, growthRate := 0, isTaxable := true }

/-- An income stream whose display name collides with the synthetic
breakdown key "Income Shortage". -/
def streamShadow : IncomeStream :=
  { id := "i3", name := "Income Shortage", monthlyAmount := 100, startAge := 0
    endAge := 200, growthRate := 0, isTaxable := true }

/-- Recomputation of the internal `actualWithdrawal` of `simYear`
(definitionally its `wr.2.1`). -/
def yearWithdrawal (settings : FinancialSettings) (streams : List IncomeStream)
    (i : ℕ) (assets : List Asset) (dep : Option ℤ) : ℚ :=
  let currentAge : ℤ := settings.currentAge + (i : ℤ)
  let isRetired : Bool := decide (settings.retirementAge ≤ currentAge)
  let inflM : ℚ := (1 + settings.inflationRate / 100) ^ i
  let expense : ℚ := settings.monthlySpending * 12 * inflM
  let inc := processIncome streams currentAge i
  let grown := assets.map (growAsset isRetired inflM)
  let wn := withdrawalNeed isRetired expense inc.1
  (withdrawPhase grown wn dep currentAge).2.1

/-- Degenerate settings with the planning horizon below the current age. -/
def settingsDegen : FinancialSettings :=
  { currentAge := 70, retirementAge := 70, planningHorizon := 60
    monthlySpending := 100, inflationRate := 0, preRetirementReturn := 0 }

/-- A 100-balance asset used by witnesses. -/
def assetX : Asset :=
  { id := "x", name := "X", balance := 100, contribution := 0
    returnRate := 0, type := "Taxable Brokerage" }

/-- A 200-balance asset used by witnesses. -/
def assetY : Asset :=
  { id := "y", name := "Y", balance := 200, contribution := 0
    returnRate := 0, type := "Cash/Savings" }

/-- A stream active at age 30, used by witnesses. -/
def streamW1 : IncomeStream :=
  { id := "w1", name := "Salary", monthlyAmount := 100, startAge := 0
    endAge := 200, growthRate := 0, isTaxable := true }

/-- A stream inactive at age 30, used by witnesses. -/
def streamW2 : IncomeStream :=
  { id := "w2", name := "Bonus", monthlyAmount := 50, startAge := 90
    endAge := 200, growthRate := 0, isTaxable := false }

/-- Looking up the key just written returns the written value. -/
theorem recGet_recSet_self (m : Breakdown) (k : String) (v : ℤ) :
    recGet (recSet m k v) k = some v := by
  induction m with
  | nil => simp [recSet, recGet]
  | cons p rest ih =>
    by_cases h : p.1 = k
    · simp [recSet, recGet, h]
    · simp [recSet, recGet, h, ih]

/-- Writing one key leaves the lookup of any other key unchanged. -/
theorem recGet_recSet_ne (m : Breakdown) (k' k : String) (v : ℤ)
    (hne : k' ≠ k) : recGet (recSet m k' v) k = recGet m k := by
  induction m with
  | nil => simp [recSet, recGet, hne]
  | cons p rest ih =>
    by_cases h : p.1 = k'
    · simp [recSet, recGet, h, hne]
    · by_cases h2 : p.1 = k
      · simp [recSet, recGet, h, h2, Ne.symm hne]
      · simp [recSet, recGet, h, h2, ih]

/-- Folding the balances from an arbitrary start is the start plus the sum. -/
theorem foldl_add_balance (l : List Asset) (c : ℚ) :
    l.foldl (fun s a => s + a.balance) c = c + (l.map Asset.balance).sum := by
  induction l generalizing c with
  | nil => simp
  | cons a t ih => simp [List.foldl_cons, ih]; ring

/-- `totalBalance` is the sum of the balances. -/
theorem totalBalance_eq_sum (l : List Asset) :
    totalBalance l = (l.map Asset.balance).sum := by
  simp [totalBalance, foldl_add_balance]

/-- Deducting `w * (b / T)` from each entry deducts `w * (sum / T)` from
the sum. -/
theorem sum_map_sub_share (l : List ℚ) (w T : ℚ) :
    (l.map (fun b => b - w * (b / T))).sum = l.sum - w * (l.sum / T) := by
  induction l with
  | nil => simp
  | cons b t ih => simp [ih]; ring

/-- The running `totalFixedIncome` accumulates exactly the amounts of the
active streams. -/
theorem incomeFold_fst (streams : List IncomeStream) (age : ℤ) (i : ℕ)
    (acc : ℚ × Breakdown) :
    (streams.foldl (incomeStep age i) acc).1 =
      acc.1 + ((streams.filter (fun s => streamActive s age)).map
        (fun s => streamAmount s i)).sum := by
  induction streams generalizing acc with
  | nil => simp
  | cons s t ih =>
    by_cases h : streamActive s age
    · simp [incomeStep, h, ih, List.filter_cons]
      ring
    · simp [incomeStep, h, ih, List.filter_cons]

/-- A name carried by no stream in the list is never written by the fold. -/
theorem incomeFold_get_notmem (streams : List IncomeStream) (age : ℤ) (i : ℕ)
    (acc : ℚ × Breakdown) (n : String) (h : ∀ s ∈ streams, s.name ≠ n) :
    recGet (streams.foldl (incomeStep age i) acc).2 n = recGet acc.2 n := by
  induction streams generalizing acc with
  | nil => simp
  | cons s t ih =>
    have hs : s.name ≠ n := h s (by simp)
    have ht : ∀ u ∈ t, u.name ≠ n := fun u hu => h u (by simp [hu])
    by_cases hact : streamActive s age
    · simp only [List.foldl_cons, incomeStep, if_pos hact]
      rw [ih _ ht]
      exact recGet_recSet_ne _ _ _ _ hs
    · simp only [List.foldl_cons, incomeStep, if_neg hact]
      exact ih _ ht

/-- Under pairwise-distinct stream names, the fold records a stream's
rounded amount under its name exactly when the stream is active. -/
theorem incomeFold_get (streams : List IncomeStream) (age : ℤ) (i : ℕ)
    (acc : ℚ × Breakdown) (s : IncomeStream) (hs : s ∈ streams)
    (hnd : (streams.map IncomeStream.name).Nodup)
    (hacc : recGet acc.2 s.name = none) :
    recGet (streams.foldl (incomeStep age i) acc).2 s.name =
      if streamActive s age then some (jsRound (streamAmount s i)) else none := by
  induction streams generalizing acc with
  | nil => cases hs
  | cons s0 t ih =>
    rw [List.map_cons, List.nodup_cons] at hnd
    rcases List.mem_cons.mp hs with rfl | hmem
    · have ht : ∀ u ∈ t, u.name ≠ s.name := by
        intro u hu
        exact fun he => hnd.1 (he ▸ List.mem_map_of_mem IncomeStream.name hu)
      rw [List.foldl_cons, incomeFold_get_notmem t age i _ _ ht]
      by_cases hact : streamActive s age
      · simp only [incomeStep, if_pos hact, recGet_recSet_self, hact, if_pos]
      · simp only [incomeStep, if_neg hact]
        exact hacc
    · have hne : s0.name ≠ s.name := by
        intro he
        exact hnd.1 (he ▸ List.mem_map_of_mem IncomeStream.name hmem)
      rw [List.foldl_cons]
      refine ih _ hmem hnd.2 ?_
      by_cases hact : streamActive s0 age
      · simp only [incomeStep, if_pos hact]
        rw [recGet_recSet_ne _ _ _ _ hne]
        exact hacc
      · simp only [incomeStep, if_neg hact]
        exact hacc

/-- Unfolding lemma: the loop with no fuel left. -/
theorem simLoop_zero (y : ℤ) (s : FinancialSettings)
    (st : List IncomeStream) (i : ℕ) (assets : List Asset) (dep : Option ℤ) :
    simLoop y s st i 0 assets dep = (assets, dep, []) := rfl

/-- Unfolding lemma: one more loop iteration. -/
theorem simLoop_succ (y : ℤ) (s : FinancialSettings)
    (st : List IncomeStream) (i fuel : ℕ) (assets : List Asset)
    (dep : Option ℤ) :
    simLoop y s st i (fuel + 1) assets dep =
      ((simLoop y s st (i + 1) fuel (simYear y s st i assets dep).1
          (simYear y s st i assets dep).2.1).1,
        (simLoop y s st (i + 1) fuel (simYear y s st i assets dep).1
          (simYear y s st i assets dep).2.1).2.1,
        (simYear y s st i assets dep).2.2 ::
          (simLoop y s st (i + 1) fuel (simYear y s st i assets dep).1
            (simYear y s st i assets dep).2.1).2.2) := rfl

/-- The loop always produces exactly `fuel` year records. -/
theorem simLoop_length (y : ℤ) (s : FinancialSettings)
    (st : List IncomeStream) :
    ∀ (fuel i : ℕ) (assets : List Asset) (dep : Option ℤ),
      (simLoop y s st i fuel assets dep).2.2.length = fuel := by
  intro fuel
  induction fuel with
  | zero => intro i assets dep; rfl
  | succ n ih =>
    intro i assets dep
    rw [simLoop_succ]
    simp [ih]

/-- The `k`-th record produced from loop index `i` carries age
`currentAge + i + k`. -/
theorem simLoop_age (y : ℤ) (s : FinancialSettings)
    (st : List IncomeStream) :
    ∀ (fuel i k : ℕ) (assets : List Asset) (dep : Option ℤ) (d : YearData),
      k < fuel →
      ((simLoop y s st i fuel assets dep).2.2.getD k d).age
        = s.currentAge + (i : ℤ) + (k : ℤ) := by
  intro fuel
  induction fuel with
  | zero => intro i k assets dep d hk; cases hk
  | succ n ih =>
    intro i k assets dep d hk
    rw [simLoop_succ]
    cases k with
    | zero => simp [simYear]
    | succ m =>
      have hm : m < n := Nat.lt_of_succ_lt_succ hk
      simp only [List.getD_cons_succ]
      rw [ih (i + 1) m _ _ d hm]
      push_cast
      ring

/-- The `k`-th record produced from loop index `i` carries calendar year
`startYear + i + k`. -/
theorem simLoop_year (y : ℤ) (s : FinancialSettings)
    (st : List IncomeStream) :
    ∀ (fuel i k : ℕ) (assets : List Asset) (dep : Option ℤ) (d : YearData),
      k < fuel →
      ((simLoop y s st i fuel assets dep).2.2.getD k d).year
        = y + (i : ℤ) + (k : ℤ) := by
  intro fuel
  induction fuel with
  | zero => intro i k assets dep d hk; cases hk
  | succ n ih =>
    intro i k assets dep d hk
    rw [simLoop_succ]
    cases k with
    | zero => simp [simYear]
    | succ m =>
      have hm : m < n := Nat.lt_of_succ_lt_succ hk
      simp only [List.getD_cons_succ]
      rw [ih (i + 1) m _ _ d hm]
      push_cast
      ring

/-- Every record the loop produces is the record of some `simYear` call. -/
theorem simLoop_mem (y : ℤ) (s : FinancialSettings)
    (st : List IncomeStream) :
    ∀ (fuel i : ℕ) (assets : List Asset) (dep : Option ℤ) (yd : YearData),
      yd ∈ (simLoop y s st i fuel assets dep).2.2 →
      ∃ (j : ℕ) (a : List Asset) (d : Option ℤ),
        yd = (simYear y s st j a d).2.2 := by
  intro fuel
  induction fuel with
  | zero => intro i assets dep yd h; cases h
  | succ n ih =>
    intro i assets dep yd h
    rw [simLoop_succ] at h
    rcases List.mem_cons.mp h with rfl | h2
    · exact ⟨i, assets, dep, rfl⟩
    · exact ih (i + 1) _ _ yd h2

theorem simYear_fst_indep (y1 y2 : ℤ) (s : FinancialSettings)
    (st : List IncomeStream) (i : ℕ) (a : List Asset) (d : Option ℤ) :
    (simYear y1 s st i a d).1 = (simYear y2 s st i a d).1 := rfl

theorem simYear_dep_indep (y1 y2 : ℤ) (s : FinancialSettings)
    (st : List IncomeStream) (i : ℕ) (a : List Asset) (d : Option ℤ) :
    (simYear y1 s st i a d).2.1 = (simYear y2 s st i a d).2.1 := rfl

theorem simYear_strip_indep (y1 y2 : ℤ) (s : FinancialSettings)
    (st : List IncomeStream) (i : ℕ) (a : List Asset) (d : Option ℤ) :
    stripYear (simYear y1 s st i a d).2.2 = stripYear (simYear y2 s st i a d).2.2 := rfl

/-- The start year (the engine's only environment read) does not influence
the final assets, the depletion age, or any year record beyond its
calendar-year label. -/
theorem simLoop_indep (y1 y2 : ℤ) (s : FinancialSettings)
    (st : List IncomeStream) :
    ∀ (fuel i : ℕ) (a : List Asset) (d : Option ℤ),
      (simLoop y1 s st i fuel a d).1 = (simLoop y2 s st i fuel a d).1 ∧
      (simLoop y1 s st i fuel a d).2.1 = (simLoop y2 s st i fuel a d).2.1 ∧
      (simLoop y1 s st i fuel a d).2.2.map stripYear
        = (simLoop y2 s st i fuel a d).2.2.map stripYear := by
  intro fuel
  induction fuel with
  | zero => intro i a d; exact ⟨rfl, rfl, rfl⟩
  | succ n ih =>
    intro i a d
    rw [simLoop_succ, simLoop_succ, simYear_fst_indep y1 y2,
      simYear_dep_indep y1 y2]
    refine ⟨(ih _ _ _).1, (ih _ _ _).2.1, ?_⟩
    simp only [List.map_cons]
    rw [simYear_strip_indep y1 y2, (ih _ _ _).2.2]

/-- The breakdown of a year record, written through the recomputed
withdrawal and shortage. -/
theorem simYear_breakdown (y : ℤ) (s : FinancialSettings)
    (streams : List IncomeStream) (i : ℕ) (assets : List Asset)
    (dep : Option ℤ) :
    (simYear y s streams i assets dep).2.2.breakdown
      = (if 0 < yearShortage s streams i assets dep
         then recSet
            (recSet (processIncome streams (s.currentAge + (i : ℤ)) i).2
              "Portfolio Withdrawals"
              (jsRound (yearWithdrawal s streams i assets dep)))
            "Income Shortage" (jsRound (yearShortage s streams i assets dep))
         else recSet (processIncome streams (s.currentAge + (i : ℤ)) i).2
            "Portfolio Withdrawals"
            (jsRound (yearWithdrawal s streams i assets dep))) := rfl

/-- Every simulated year's breakdown has a "Portfolio Withdrawals" entry. -/
theorem simYear_pw_present (y : ℤ) (s : FinancialSettings)
    (streams : List IncomeStream) (i : ℕ) (assets : List Asset)
    (dep : Option ℤ) :
    recGet ((simYear y s streams i assets dep).2.2.breakdown)
      "Portfolio Withdrawals" ≠ none := by
  rw [simYear_breakdown]
  by_cases hsh : 0 < yearShortage s streams i assets dep
  · rw [if_pos hsh,
      recGet_recSet_ne _ _ _ _ (by decide : "Income Shortage" ≠ "Portfolio Withdrawals"),
      recGet_recSet_self]
    simp
  · rw [if_neg hsh, recGet_recSet_self]
    simp

/-- C4: the trajectory has exactly `planningHorizon - currentAge + 1`
entries (clamped at zero iterations for degenerate horizons), its ages are
the contiguous strictly increasing sequence starting at `currentAge`, and
when `planningHorizon < currentAge` the engine still returns normally with
a zero-length trajectory. -/
theorem c4_trajectory_shape (y : ℤ) (s : FinancialSettings)
    (assets : List Asset) (streams : List IncomeStream) :
    (runSimulation y s assets streams).data.length
      = (s.planningHorizon - s.currentAge + 1).toNat ∧
    (∀ (k : ℕ) (d : YearData),
      k < (runSimulation y s assets streams).data.length →
      ((runSimulation y s assets streams).data.getD k d).age
        = s.currentAge + (k : ℤ)) ∧
    (s.planningHorizon < s.currentAge →
      (runSimulation y s assets streams).data = []) := by
  have hlen : (runSimulation y s assets streams).data.length
      = (s.planningHorizon - s.currentAge + 1).toNat := by
    simp [runSimulation, simLoop_length]
  refine ⟨hlen, ?_, ?_⟩
  · intro k d hk
    rw [hlen] at hk
    have h := simLoop_age y s streams
      ((s.planningHorizon - s.currentAge + 1).toNat) 0 k assets none d hk
    simpa [runSimulation] using h
  · intro hdeg
    have h0 : (s.planningHorizon - s.currentAge + 1).toNat = 0 := by omega
    rw [h0] at hlen
    exact List.eq_nil_of_length_eq_zero hlen

/-- Witness for C4 at Scenario B's inputs and at a degenerate horizon. -/
theorem c4_trajectory_shape_witness :
    ((runSimulation 2026 settingsB [assetB] []).data.getD 1 yd0).age = 66 ∧
    (runSimulation 2026 settingsDegen [] []).data = [] := by
  constructor
  · have h := c4_trajectory_shape 2026 settingsB [assetB] []
    have hk : (1 : ℕ) < (runSimulation 2026 settingsB [assetB] []).data.length := by
      rw [h.1]
      decide
    rw [h.2.1 1 yd0 hk]
    decide
  · exact (c4_trajectory_shape 2026 settingsDegen [] []).2.2 (by decide)

/-- C9: the engine is a pure function (two calls on identical inputs give
identical results, calendar-year labels included), and the start-of-run
calendar year — its only environment read — influences nothing except the
`year` labels, which are `startYear + index`: success, depletion age,
final balance, and every other field of every year record are identical
for any two start years. -/
theorem c9_determinism_env (y1 y2 : ℤ) (s : FinancialSettings)
    (assets : List Asset) (streams : List IncomeStream) :
    runSimulation y1 s assets streams = runSimulation y1 s assets streams ∧
    (runSimulation y1 s assets streams).success
      = (runSimulation y2 s assets streams).success ∧
    (runSimulation y1 s assets streams).depletionAge
      = (runSimulation y2 s assets streams).depletionAge ∧
    (runSimulation y1 s assets streams).finalBalance
      = (runSimulation y2 s assets streams).finalBalance ∧
    (runSimulation y1 s assets streams).data.map stripYear
      = (runSimulation y2 s assets streams).data.map stripYear ∧
    (∀ (k : ℕ) (d : YearData),
      k < (runSimulation y1 s assets streams).data.length →
      ((runSimulation y1 s assets streams).data.getD k d).year
        = y1 + (k : ℤ)) := by
  have h := simLoop_indep y1 y2 s streams
    ((s.planningHorizon - s.currentAge + 1).toNat) 0 assets none
  refine ⟨rfl, ?_, ?_, ?_, ?_, ?_⟩
  · simp [runSimulation, h.2.1]
  · simp [runSimulation, h.2.1]
  · simp [runSimulation, h.1]
  · simp [runSimulation, h.2.2]
  · intro k d hk
    have hk2 : k < (s.planningHorizon - s.currentAge + 1).toNat := by
      simpa [runSimulation, simLoop_length] using hk
    have hy := simLoop_year y1 s streams
      ((s.planningHorizon - s.currentAge + 1).toNat) 0 k assets none d hk2
    simpa [runSimulation] using hy

/-- Witness for C9 at Scenario B's inputs, with start years 2026 and 1999. -/
theorem c9_determinism_env_witness :
    ((runSimulation 2026 settingsB [assetB] []).data.getD 1 yd0).year = 2027 ∧
    (runSimulation 2026 settingsB [assetB] []).finalBalance
      = (runSimulation 1999 settingsB [assetB] []).finalBalance := by
  constructor
  · have h := c9_determinism_env 2026 1999 settingsB [assetB] []
    have hk : (1 : ℕ) < (runSimulation 2026 settingsB [assetB] []).data.length := by
      have hl : (runSimulation 2026 settingsB [assetB] []).data.length
          = (settingsB.planningHorizon - settingsB.currentAge + 1).toNat := by
        simp [runSimulation, simLoop_length]
      rw [hl]
      decide
    rw [h.2.2.2.2.2 1 yd0 hk]
    decide
  · exact (c9_determinism_env 2026 1999 settingsB [assetB] []).2.2.2.1

/-- C2: a partial (non-draining) withdrawal — `totalAvailable >=
withdrawalNeeded > 0` — deducts `withdrawalNeeded * (balance /
totalAvailable)` from each asset, preserves every pairwise balance ratio
exactly, withdraws exactly `withdrawalNeeded` in total (the post-withdrawal
total is the previous total minus the need), and records no shortfall. -/
theorem c2_proportional_drawdown (assets : List Asset) (wn : ℚ)
    (dep : Option ℤ) (age : ℤ) (hw : 0 < wn)
    (hle : wn ≤ totalBalance assets) :
    (withdrawPhase assets wn dep age).2.1 = wn ∧
    (withdrawPhase assets wn dep age).2.2.1 = 0 ∧
    (withdrawPhase assets wn dep age).2.2.2 = dep ∧
    (∀ (k : ℕ) (a : Asset), assets.get? k = some a →
      (withdrawPhase assets wn dep age).1.get? k
        = some { a with
            balance := a.balance - wn * (a.balance / totalBalance assets) }) ∧
    totalBalance (withdrawPhase assets wn dep age).1
      = totalBalance assets - wn ∧
    (∀ (a b : Asset) (r : ℚ), a.balance = r * b.balance →
      a.balance - wn * (a.balance / totalBalance assets)
        = r * (b.balance - wn * (b.balance / totalBalance assets))) := by
  have hta : 0 < totalBalance assets := lt_of_lt_of_le hw hle
  have hbr : withdrawPhase assets wn dep age
      = (assets.map (fun a => { a with
            balance := a.balance - wn * (a.balance / totalBalance assets) }),
          wn, 0, dep) := by
    simp only [withdrawPhase]
    rw [if_pos ⟨hw, hta⟩, if_pos hle]
  rw [hbr]
  refine ⟨rfl, rfl, rfl, ?_, ?_, ?_⟩
  · intro k a hka
    rw [List.get?_map, hka]
    rfl
  · have hmm : totalBalance (assets.map (fun a => { a with
        balance := a.balance - wn * (a.balance / totalBalance assets) }))
        = ((assets.map Asset.balance).map
            (fun b => b - wn * (b / totalBalance assets))).sum := by
      rw [totalBalance_eq_sum, List.map_map, List.map_map]
      rfl
    rw [hmm, sum_map_sub_share, ← totalBalance_eq_sum,
      div_self (ne_of_gt hta), mul_one]
  · intro a b r hr
    rw [hr]
    ring

/-- Witness for C2: two assets in ratio 1:2, withdrawing 30 of 300. -/
theorem c2_proportional_drawdown_witness :
    (withdrawPhase [assetX, assetY] 30 (some 5) 40).2.1 = 30 ∧
    (withdrawPhase [assetX, assetY] 30 (some 5) 40).2.2.1 = 0 ∧
    (withdrawPhase [assetX, assetY] 30 (some 5) 40).1.get? 0
      = some { assetX with
          balance := assetX.balance
            - 30 * (assetX.balance / totalBalance [assetX, assetY]) } ∧
    totalBalance (withdrawPhase [assetX, assetY] 30 (some 5) 40).1
      = totalBalance [assetX, assetY] - 30 := by
  have h := c2_proportional_drawdown [assetX, assetY] 30 (some 5) 40
    (by norm_num)
    (by norm_num [totalBalance, assetX, assetY])
  exact ⟨h.1, h.2.1, h.2.2.2.1 0 assetX rfl, h.2.2.2.2.1⟩

/-- C1: in the draining case `0 < totalAvailable < withdrawalNeeded` the
engine withdraws exactly `totalAvailable`, zeroes every asset, records
`shortage = withdrawalNeeded - totalAvailable`, and — the depletion age
being not yet set — records the current age; on Scenario B's inputs the
first year withdraws 1000 with shortfall 1400 and depletion age 65, and
the second withdraws 0 with shortfall 2400, zero balance, and failure. -/
theorem c1_drain_all (assets : List Asset) (wn : ℚ) (age : ℤ)
    (hta : 0 < totalBalance assets) (hlt : totalBalance assets < wn) :
    (withdrawPhase assets wn none age).2.1 = totalBalance assets ∧
    (withdrawPhase assets wn none age).2.2.1 = wn - totalBalance assets ∧
    (withdrawPhase assets wn none age).2.2.2 = some age ∧
    (∀ (k : ℕ) (a : Asset), assets.get? k = some a →
      (withdrawPhase assets wn none age).1.get? k
        = some { a with balance := 0 }) ∧
    (runSimulation 2026 settingsB [assetB] []).success = false ∧
    (runSimulation 2026 settingsB [assetB] []).depletionAge = some 65 ∧
    ((runSimulation 2026 settingsB [assetB] []).data.getD 0 yd0).withdrawals
      = 1000 ∧
    ((runSimulation 2026 settingsB [assetB] []).data.getD 0 yd0).shortfall
      = 1400 ∧
    ((runSimulation 2026 settingsB [assetB] []).data.getD 1 yd0).withdrawals
      = 0 ∧
    ((runSimulation 2026 settingsB [assetB] []).data.getD 1 yd0).shortfall
      = 2400 ∧
    ((runSimulation 2026 settingsB [assetB] []).data.getD 1
        yd0).portfolioBalance = 0 := by
  have hbr : withdrawPhase assets wn none age
      = (assets.map (fun a => { a with balance := 0 }), totalBalance assets,
          wn - totalBalance assets, some age) := by
    simp only [withdrawPhase]
    rw [if_pos ⟨lt_trans hta hlt, hta⟩, if_neg (not_le.mpr hlt)]
    rfl
  rw [hbr]
  refine ⟨rfl, rfl, rfl, ?_, ?_⟩
  · intro k a hka
    rw [List.get?_map, hka]
    rfl
  · simp only [runSimulation, settingsB]
    norm_num
    rw [show Int.toNat 2 = 2 from rfl, show (2 : ℕ) = 0 + 1 + 1 from rfl,
      simLoop_succ, simLoop_succ, simLoop_zero]
    norm_num [simYear, settingsB, assetB, processIncome, growAsset,
      totalBalance, withdrawalNeed, withdrawPhase, jsFalsyOpt, jsRound,
      Breakdown.empty]

/-- Witness for C1's draining branch: two assets totalling 300 against a
need of 500. -/
theorem c1_drain_all_witness :
    (withdrawPhase [assetX, assetY] 500 none 70).2.1 = 300 ∧
    (withdrawPhase [assetX, assetY] 500 none 70).2.2.1 = 200 ∧
    (withdrawPhase [assetX, assetY] 500 none 70).2.2.2 = some 70 ∧
    (withdrawPhase [assetX, assetY] 500 none 70).1.get? 1
      = some { assetY with balance := 0 } := by
  have h := c1_drain_all [assetX, assetY] 500 70
    (by norm_num [totalBalance, assetX, assetY])
    (by norm_num [totalBalance, assetX, assetY])
  refine ⟨?_, ?_, h.2.2.1, h.2.2.2.1 1 assetY rfl⟩
  · rw [h.1]
    norm_num [totalBalance, assetX, assetY]
  · rw [h.2.1]
    norm_num [totalBalance, assetX, assetY]

/-- C5: each year an asset first gains growth computed on its
pre-contribution balance, then — only before retirement — the
inflation-adjusted contribution; a retired year adds growth only; and on
Scenario C's inputs the balance is 10000 after year one, 20500 after year
two, and 21525 (growth, no contribution) in the first retired year. -/
theorem c5_growth_contribution :
    (∀ (inflM : ℚ) (a : Asset),
      (growAsset false inflM a).balance
        = a.balance + a.balance * (a.returnRate / 100)
          + a.contribution * inflM) ∧
    (∀ (inflM : ℚ) (a : Asset),
      (growAsset true inflM a).balance
        = a.balance + a.balance * (a.returnRate / 100)) ∧
    (runSimulation 2026 settingsC [assetC] []).data.length = 3 ∧
    ((runSimulation 2026 settingsC [assetC] []).data.getD 0
        yd0).portfolioBalance = 10000 ∧
    ((runSimulation 2026 settingsC [assetC] []).data.getD 1
        yd0).portfolioBalance = 20500 ∧
    ((runSimulation 2026 settingsC [assetC] []).data.getD 2
        yd0).portfolioBalance = 21525 := by
  refine ⟨fun inflM a => rfl, fun inflM a => rfl, ?_⟩
  simp only [runSimulation, settingsC]
  norm_num
  rw [show Int.toNat 3 = 3 from rfl, show (3 : ℕ) = 0 + 1 + 1 + 1 from rfl,
    simLoop_succ, simLoop_succ, simLoop_succ, simLoop_zero]
  norm_num [simYear, settingsC, assetC, processIncome, growAsset,
    totalBalance, withdrawalNeed, withdrawPhase, jsFalsyOpt, jsRound,
    Breakdown.empty]

/-- C6: in any simulated year, total fixed income sums exactly the active
streams' amounts `monthlyAmount * 12 * (1 + growthRate/100) ^ i` with `i`
the zero-based year index counted from the simulation's start, and — for
streams whose names are pairwise distinct and distinct from the synthetic
breakdown labels — an active stream's rounded amount sits in the year's
breakdown under its own name while an inactive stream has no entry. -/
theorem c6_stream_activity (y : ℤ) (s : FinancialSettings)
    (streams : List IncomeStream) (i : ℕ) (assets : List Asset)
    (dep : Option ℤ)
    (hnd : (streams.map IncomeStream.name).Nodup)
    (hsyn : ∀ t ∈ streams, t.name ≠ "Portfolio Withdrawals"
      ∧ t.name ≠ "Income Shortage") :
    ((processIncome streams (s.currentAge + (i : ℤ)) i).1
      = ((streams.filter
            (fun t => streamActive t (s.currentAge + (i : ℤ)))).map
          (fun t => streamAmount t i)).sum) ∧
    (∀ t ∈ streams,
      recGet ((simYear y s streams i assets dep).2.2.breakdown) t.name
        = if streamActive t (s.currentAge + (i : ℤ))
          then some (jsRound (streamAmount t i)) else none) := by
  constructor
  · have h := incomeFold_fst streams (s.currentAge + (i : ℤ)) i
      (0, Breakdown.empty)
    simpa [processIncome] using h
  · intro t ht
    rw [simYear_breakdown]
    have h1 : t.name ≠ "Portfolio Withdrawals" := (hsyn t ht).1
    have h2 : t.name ≠ "Income Shortage" := (hsyn t ht).2
    by_cases hsh : 0 < yearShortage s streams i assets dep
    · rw [if_pos hsh, recGet_recSet_ne _ _ _ _ (Ne.symm h2),
        recGet_recSet_ne _ _ _ _ (Ne.symm h1)]
      exact incomeFold_get streams _ i _ t ht hnd rfl
    · rw [if_neg hsh, recGet_recSet_ne _ _ _ _ (Ne.symm h1)]
      exact incomeFold_get streams _ i _ t ht hnd rfl

/-- Witness for C6: at age 30, the active "Salary" stream is recorded at
1200 and the inactive "Bonus" stream has no entry. -/
theorem c6_stream_activity_witness :
    recGet ((simYear 2026 settingsOneYear [streamW1, streamW2] 0 []
        none).2.2.breakdown) "Salary" = some 1200 ∧
    recGet ((simYear 2026 settingsOneYear [streamW1, streamW2] 0 []
        none).2.2.breakdown) "Bonus" = none := by
  have h := c6_stream_activity 2026 settingsOneYear [streamW1, streamW2] 0 []
    none (by decide) (by decide)
  constructor
  · have h1 := h.2 streamW1 (by simp)
    rw [show streamW1.name = "Salary" from rfl] at h1
    rw [h1]
    norm_num [streamActive, streamW1, settingsOneYear, streamAmount, jsRound]
  · have h2 := h.2 streamW2 (by simp)
    rw [show streamW2.name = "Bonus" from rfl] at h2
    rw [h2]
    norm_num [streamActive, streamW2, settingsOneYear]

/-- C7 (amended): every produced year record's breakdown has a "Portfolio
Withdrawals" entry unconditionally, and — provided no income stream is
itself named "Income Shortage" — an "Income Shortage" entry appears in a
year exactly when that year's (unrounded) shortage is positive. -/
theorem c7_synthetic_keys (y : ℤ) (s : FinancialSettings)
    (streams : List IncomeStream) (i : ℕ) (assets aInit : List Asset)
    (dep : Option ℤ)
    (hn : ∀ t ∈ streams, t.name ≠ "Income Shortage") :
    (∀ yd ∈ (runSimulation y s aInit streams).data,
      recGet yd.breakdown "Portfolio Withdrawals" ≠ none) ∧
    (recGet ((simYear y s streams i assets dep).2.2.breakdown)
        "Income Shortage" ≠ none
      ↔ 0 < yearShortage s streams i assets dep) := by
  constructor
  · intro yd hyd
    have hmem : yd ∈ (simLoop y s streams 0
        ((s.planningHorizon - s.currentAge + 1).toNat) aInit none).2.2 := by
      simpa [runSimulation] using hyd
    obtain ⟨j, a, d, rfl⟩ := simLoop_mem y s streams _ 0 aInit none yd hmem
    exact simYear_pw_present y s streams j a d
  · rw [simYear_breakdown]
    by_cases hsh : 0 < yearShortage s streams i assets dep
    · rw [if_pos hsh, recGet_recSet_self]
      simp [hsh]
    · rw [if_neg hsh,
        recGet_recSet_ne _ _ _ _
          (by decide : "Portfolio Withdrawals" ≠ "Income Shortage")]
      have hnone : recGet (processIncome streams (s.currentAge + (i : ℤ))
          i).2 "Income Shortage" = none := by
        have h := incomeFold_get_notmem streams (s.currentAge + (i : ℤ)) i
          (0, Breakdown.empty) "Income Shortage" hn
        simpa [processIncome] using h
      rw [hnone]
      simp [hsh]

/-- Witness for C7's amended statement, on Scenario B (no streams): year
one has both entries and a positive shortage; and a year with no shortage
has no "Income Shortage" entry. -/
theorem c7_synthetic_keys_witness :
    recGet ((simYear 2026 settingsB [] 0 [assetB] none).2.2.breakdown)
      "Income Shortage" ≠ none ∧
    recGet ((simYear 2026 settingsOneYear [] 0 [] none).2.2.breakdown)
      "Income Shortage" = none ∧
    recGet ((simYear 2026 settingsB [] 0 [assetB] none).2.2.breakdown)
      "Portfolio Withdrawals" ≠ none := by
  refine ⟨?_, ?_, ?_⟩
  · rw [(c7_synthetic_keys 2026 settingsB [] 0 [assetB] [assetB] none
      (by simp)).2]
    norm_num [yearShortage, settingsB, assetB, processIncome, growAsset,
      totalBalance, withdrawalNeed, withdrawPhase, jsFalsyOpt,
      Breakdown.empty]
  · have h := (c7_synthetic_keys 2026 settingsOneYear [] 0 [] [] none
      (by simp)).2
    by_contra hne
    have := h.mp hne
    rw [show yearShortage settingsOneYear [] 0 [] none = 0 from rfl] at this
    exact lt_irrefl 0 this
  · have h := (c7_synthetic_keys 2026 settingsB [] 0 [assetB] [assetB] none
      (by simp)).1
    have hyd : (simYear 2026 settingsB [] 0 [assetB] none).2.2
        ∈ (runSimulation 2026 settingsB [assetB] []).data := by
      simp only [runSimulation, settingsB]
      norm_num
      rw [show Int.toNat 2 = 2 from rfl, show (2 : ℕ) = 0 + 1 + 1 from rfl,
        simLoop_succ, simLoop_succ, simLoop_zero]
      simp [settingsB]
    exact h _ hyd

/-- C7 counterexample: with an income stream literally named "Income
Shortage" active in a shortage-free year, the year's breakdown does
contain an "Income Shortage" entry (1200) although the year's shortage is
zero, refuting the claimed equivalence as stated for every input. -/
theorem c7_counterexample :
    recGet ((runSimulation 2026 settingsOneYear [] [streamShadow]).data.getD
      0 yd0).breakdown "Income Shortage" = some 1200 ∧
    (runSimulation 2026 settingsOneYear [] [streamShadow]).data.getD 0 yd0
      = (simYear 2026 settingsOneYear [streamShadow] 0 [] none).2.2 ∧
    yearShortage settingsOneYear [streamShadow] 0 [] none = 0 ∧
    ((runSimulation 2026 settingsOneYear [] [streamShadow]).data.getD 0
      yd0).shortfall = 0 := by
  refine ⟨?_, rfl, rfl, ?_⟩
  · simp only [runSimulation, settingsOneYear]
    norm_num
    rw [show (1 : ℕ) = 0 + 1 from rfl, simLoop_succ, simLoop_zero]
    norm_num [simYear, settingsOneYear, streamShadow, processIncome,
      incomeStep, streamActive, streamAmount, growAsset, totalBalance,
      withdrawalNeed, withdrawPhase, jsFalsyOpt, jsRound, Breakdown.empty,
      yearShortage, yearWithdrawal, recSet, recGet]
  · simp only [runSimulation, settingsOneYear]
    norm_num
    rw [show (1 : ℕ) = 0 + 1 from rfl, simLoop_succ, simLoop_zero]
    norm_num [simYear, settingsOneYear, streamShadow, processIncome,
      incomeStep, streamActive, streamAmount, growAsset, totalBalance,
      withdrawalNeed, withdrawPhase, jsFalsyOpt, jsRound, Breakdown.empty]

/-- C3 (code behaviour at age 0): on a run whose first year is a shortfall
year at age 0, the `if (!depletionAge)` truthiness guard treats the stored
age 0 as unset, so the next shortfall year overwrites it: the result's
depletion age is 1 although the first year with positive shortfall has
age 0. -/
theorem c3_depletion_age_bug :
    ((runSimulation 2026 settingsZero [] []).data.getD 0 yd0).age = 0 ∧
    ((runSimulation 2026 settingsZero [] []).data.getD 0 yd0).shortfall
      = 1200 ∧
    ((runSimulation 2026 settingsZero [] []).data.getD 1 yd0).age = 1 ∧
    ((runSimulation 2026 settingsZero [] []).data.getD 1 yd0).shortfall
      = 1200 ∧
    (runSimulation 2026 settingsZero [] []).depletionAge = some 1 ∧
    (runSimulation 2026 settingsZero [] []).success = false := by
  simp only [runSimulation, settingsZero]
  norm_num
  rw [show Int.toNat 2 = 2 from rfl, show (2 : ℕ) = 0 + 1 + 1 from rfl,
    simLoop_succ, simLoop_succ, simLoop_zero]
  norm_num [simYear, settingsZero, processIncome, growAsset, totalBalance,
    withdrawalNeed, withdrawPhase, jsFalsyOpt, jsRound, Breakdown.empty]

/-- C10: two streams sharing the name "Pension" (1200 and 2400 a year),
both active: the year's breakdown holds only the later stream's 2400 under
"Pension", while total fixed income (3600) and the recorded total income
include both, so the breakdown's income entries understate the income
credited. -/
theorem c10_duplicate_stream_names :
    ((runSimulation 2026 settingsOneYear [] [streamP1, streamP2]).data.getD
        0 yd0).breakdown
      = [("Pension", 2400), ("Portfolio Withdrawals", 0)] ∧
    (processIncome [streamP1, streamP2] 30 0).1 = 3600 ∧
    jsRound (streamAmount streamP1 0) = 1200 ∧
    jsRound (streamAmount streamP2 0) = 2400 ∧
    ((runSimulation 2026 settingsOneYear [] [streamP1, streamP2]).data.getD
        0 yd0).totalIncome = 3600 := by
  refine ⟨?_, ?_, ?_, ?_, ?_⟩
  · simp only [runSimulation, settingsOneYear]
    norm_num
    rw [show (1 : ℕ) = 0 + 1 from rfl, simLoop_succ, simLoop_zero]
    norm_num [simYear, settingsOneYear, streamP1, streamP2, processIncome,
      incomeStep, streamActive, streamAmount, growAsset, totalBalance,
      withdrawalNeed, withdrawPhase, jsFalsyOpt, jsRound, Breakdown.empty,
      recSet, recGet]
    decide
  · norm_num [processIncome, incomeStep, streamActive, streamAmount,
      streamP1, streamP2, Breakdown.empty]
  · norm_num [jsRound, streamAmount, streamP1]
  · norm_num [jsRound, streamAmount, streamP2]
  · simp only [runSimulation, settingsOneYear]
    norm_num
    rw [show (1 : ℕ) = 0 + 1 from rfl, simLoop_succ, simLoop_zero]
    norm_num [simYear, settingsOneYear, streamP1, streamP2, processIncome,
      incomeStep, streamActive, streamAmount, growAsset, totalBalance,
      withdrawalNeed, withdrawPhase, jsFalsyOpt, jsRound, Breakdown.empty,
      recSet, recGet]
